import Mathlib

/-!
Verification of the DataHaven relayer (TypeScript source under `src/relayer`)
against its natural-language specification.

The development shallowly embeds the relevant parts of the source:

* `EventListener.handleEvent` and the event/job state it mutates (dedup path);
* `RelayerService.processStorageRequest` / `processRetrievalRequest` as
  functions from an oracle of external-call outcomes to a trace of effects
  (database status writes, `markFailed` writeback calls, step invocations);
* `ReceiptGenerator.createReceipt` payload construction;
* the byte encodings signed by `ReceiptGenerator.signForEVM` and verified by
  the `DataHaven.sol` contract `verifyReceipt`;
* `SealZKHandler.generateIntegrityProof` and `WalrusSDKClient.store`;
* the confirmation-wait loops of `EventListener`.

External collaborators (SHA-256, the Walrus blob store, RPC results) enter as
explicit function or oracle parameters, so every definition is executable.
-/

namespace DataHaven

/-! ### Event ingestion (`EventListener.ts`)

A `ChainEvent` is the payload handed to `EventListener.handleEvent`.  Only the
fields that `handleEvent` reads are modelled: `type` routes the event to a
queue, and `transactionHash` / `requestId` form the dedup key
`eventId = chain + "-" + (event.transactionHash || event.requestId)`
(JavaScript `||` falls back when `transactionHash` is absent or empty). -/

structure ChainEvent where
  type : String
  transactionHash : Option String
  requestId : String
deriving DecidableEq, Repr

def eventIdOf (chain : String) (ev : ChainEvent) : String :=
  chain ++ "-" ++
    (match ev.transactionHash with
     | some h => if h = "" then ev.requestId else h
     | none => ev.requestId)

/-- The durable state touched by `handleEvent`: the Mongo `events` collection
(saved event records, keyed by their `id` string) and the three Redis queues.
Queued jobs are tracked by the `eventId` of the event they carry. -/
structure RelayerState where
  events : List String
  storageJobs : List String
  retrievalJobs : List String
  fraudJobs : List String
deriving DecidableEq, Repr

def emptyRelayerState : RelayerState := ⟨[], [], [], []⟩

/-- `Database.eventExists`: `countDocuments {id: eventId} > 0`. -/
def eventExists (st : RelayerState) (eventId : String) : Bool :=
  decide (0 < st.events.count eventId)

/-- `EventListener.handleEvent`: compute the dedup key; drop the event if a
record with that id already exists; otherwise save the event record
(`Database.saveEvent`), enqueue a `storage-request` or `retrieval-request` job
according to `event.type`, and enqueue a `fraud-check` job. -/
def handleEvent (st : RelayerState) (chain : String) (ev : ChainEvent) : RelayerState :=
  let eventId := eventIdOf chain ev
  if eventExists st eventId then st
  else
    let st1 : RelayerState := { st with events := st.events ++ [eventId] }
    let st2 : RelayerState :=
      if ev.type = "StorageRequested" then
        { st1 with storageJobs := st1.storageJobs ++ [eventId] }
      else if ev.type = "RetrievalRequested" then
        { st1 with retrievalJobs := st1.retrievalJobs ++ [eventId] }
      else st1
    { st2 with fraudJobs := st2.fraudJobs ++ [eventId] }

/-- Sequential delivery of a batch of `(chain, event)` pairs to `handleEvent`. -/
def deliverAll (st : RelayerState) (devs : List (String × ChainEvent)) : RelayerState :=
  devs.foldl (fun s p => handleEvent s p.1 p.2) st

/-- Dedup invariant for a fixed key `k`: at most one saved event record, at
most one storage/retrieval job, and no job without a saved record. -/
def dedupInv (k : String) (st : RelayerState) : Prop :=
  st.events.count k ≤ 1 ∧
  st.storageJobs.count k + st.retrievalJobs.count k ≤ 1 ∧
  (st.events.count k = 0 → st.storageJobs.count k + st.retrievalJobs.count k = 0)

lemma eventExists_false_count {st : RelayerState} {eventId : String}
    (h : eventExists st eventId = false) : st.events.count eventId = 0 := by
  have h2 := of_decide_eq_false h
  omega

lemma handleEvent_preserves_dedupInv (k chain : String) (ev : ChainEvent)
    {st : RelayerState} (h : dedupInv k st) : dedupInv k (handleEvent st chain ev) := by
  unfold handleEvent
  by_cases hex : eventExists st (eventIdOf chain ev) = true
  · simp only [hex, if_true]
    exact h
  · have hex0 : eventExists st (eventIdOf chain ev) = false := by
      cases hb : eventExists st (eventIdOf chain ev)
      · rfl
      · exact absurd hb hex
    have hcount : st.events.count (eventIdOf chain ev) = 0 := eventExists_false_count hex0
    simp only [hex0, Bool.false_eq_true, if_false]
    obtain ⟨h1, h2, h3⟩ := h
    by_cases hk : eventIdOf chain ev = k
    · subst hk
      have hjobs := h3 hcount
      by_cases hs : ev.type = "StorageRequested"
      · simp only [hs, if_true]
        refine ⟨?_, ?_, ?_⟩ <;>
          simp_all [dedupInv, List.count_append, List.count_singleton]
      · by_cases hr : ev.type = "RetrievalRequested"
        · simp only [hs, hr, if_true, if_false]
          refine ⟨?_, ?_, ?_⟩ <;>
            simp_all [dedupInv, List.count_append, List.count_singleton]
        · simp only [hs, hr, if_false]
          refine ⟨?_, ?_, ?_⟩ <;>
            simp_all [dedupInv, List.count_append, List.count_singleton]
    · have hsing : List.count k [eventIdOf chain ev] = 0 := by
        simp [List.count_singleton', hk]
      by_cases hs : ev.type = "StorageRequested"
      · simp only [hs, if_true]
        refine ⟨?_, ?_, ?_⟩ <;>
          simp_all [List.count_append]
      · by_cases hr : ev.type = "RetrievalRequested"
        · simp only [hs, hr, if_true, if_false]
          refine ⟨?_, ?_, ?_⟩ <;>
            simp_all [List.count_append]
        · simp only [hs, hr, if_false]
          refine ⟨?_, ?_, ?_⟩ <;>
            simp_all [List.count_append]

lemma deliverAll_preserves_dedupInv (k : String) (devs : List (String × ChainEvent)) :
    ∀ st : RelayerState, dedupInv k st → dedupInv k (deliverAll st devs) := by
  induction devs with
  | nil => intro st h; exact h
  | cons d rest ih =>
    intro st h
    exact ih (handleEvent st d.1 d.2) (handleEvent_preserves_dedupInv k d.1 d.2 h)

/-- C1: starting from an empty store, no matter which events are delivered to
`handleEvent` and in what multiplicity, every dedup key `(chain, eventId)` has
at most one saved event record and at most one storage/retrieval job; and a
delivery whose key already has a saved record leaves the entire state
unchanged (no further side effects). -/
theorem handleEvent_dedup_once (devs : List (String × ChainEvent)) (k : String)
    (st : RelayerState) (chain : String) (ev : ChainEvent)
    (hdup : eventExists st (eventIdOf chain ev) = true) :
    ((deliverAll emptyRelayerState devs).events.count k ≤ 1 ∧
      (deliverAll emptyRelayerState devs).storageJobs.count k +
        (deliverAll emptyRelayerState devs).retrievalJobs.count k ≤ 1) ∧
    handleEvent st chain ev = st := by
  constructor
  · have h := deliverAll_preserves_dedupInv k devs emptyRelayerState
      (by simp [dedupInv, emptyRelayerState])
    exact ⟨h.1, h.2.1⟩
  · unfold handleEvent
    simp only [hdup, if_true]

/-- Witness for C1: a concrete duplicate delivery is a no-op, and two
deliveries of the same Ethereum event produce one record and one job. -/
theorem handleEvent_dedup_once_witness :
    ((deliverAll emptyRelayerState
        [("ethereum", ⟨"StorageRequested", some "tx1", "r1"⟩),
         ("ethereum", ⟨"StorageRequested", some "tx1", "r1"⟩)]).events.count "ethereum-tx1" ≤ 1 ∧
      (deliverAll emptyRelayerState
        [("ethereum", ⟨"StorageRequested", some "tx1", "r1"⟩),
         ("ethereum", ⟨"StorageRequested", some "tx1", "r1"⟩)]).storageJobs.count "ethereum-tx1" +
        (deliverAll emptyRelayerState
        [("ethereum", ⟨"StorageRequested", some "tx1", "r1"⟩),
         ("ethereum", ⟨"StorageRequested", some "tx1", "r1"⟩)]).retrievalJobs.count "ethereum-tx1" ≤ 1) ∧
    handleEvent ⟨["ethereum-tx1"], ["ethereum-tx1"], [], ["ethereum-tx1"]⟩ "ethereum"
        ⟨"StorageRequested", some "tx1", "r1"⟩ =
      ⟨["ethereum-tx1"], ["ethereum-tx1"], [], ["ethereum-tx1"]⟩ :=
  handleEvent_dedup_once
    [("ethereum", ⟨"StorageRequested", some "tx1", "r1"⟩),
     ("ethereum", ⟨"StorageRequested", some "tx1", "r1"⟩)]
    "ethereum-tx1"
    ⟨["ethereum-tx1"], ["ethereum-tx1"], [], ["ethereum-tx1"]⟩ "ethereum"
    ⟨"StorageRequested", some "tx1", "r1"⟩ (by decide)

/-! ### Storage workflow (`RelayerService.processStorageRequest`, `index.ts`)

The routine is embedded as a function from a `StorageOracle` — the outcomes of
every external call it makes, in the order the source makes them — to a
`StorageEffects` trace.  The source wraps the entire step sequence in one
`try`; the `catch` persists `status: "failed"` once and attempts one
`markFailedOnOrigin` writeback, then rethrows. -/

inductive StorageStatus where
  | pending
  | uploaded
  | stored
  | proofGenerated
  | confirmed
  | failed
deriving DecidableEq, Repr

/-- One `Database.updateStorageRequest` status write: the status string written
and, for failures, the recorded error message. -/
structure StatusWrite where
  status : StorageStatus
  reason : Option String
deriving DecidableEq, Repr

/-- Outcomes of the external calls made by `processStorageRequest`, in source
order.  `markFailedResult` is the outcome of a `markFailedOnOrigin` attempt
(the source rethrows its errors). -/
structure StorageOracle where
  fraudIsFraudulent : Bool
  fraudReason : String
  markFailedResult : Except String Unit
  encryptedData : Option (List Nat)
  storeResult : Except String String
  proofResult : Except String (List Nat)
  suiResult : Except String String
  receiptResult : Except String Unit
  submitReceiptResult : Except String Unit
  originChain : String
  withdrawResult : Except String Unit
  bridgeResult : Except String Unit

/-- Effects of one `processStorageRequest` execution: persisted status writes,
number of `markFailedOnOrigin` attempts, how many times each later workflow
step was invoked, and the returned/thrown result. -/
structure StorageEffects where
  dbWrites : List StatusWrite
  markFailedCalls : Nat
  storeCalls : Nat
  proofCalls : Nat
  suiCalls : Nat
  receiptCalls : Nat
  submitReceiptCalls : Nat
  withdrawCalls : Nat
  bridgeCalls : Nat
  result : Except String Bool
deriving Repr

/-- The `catch` block of `processStorageRequest`: persist `failed` with the
thrown message, attempt `markFailedOnOrigin` once more (if that attempt itself
throws, its error propagates instead of the original), rethrow. -/
def catchEffects (o : StorageOracle) (msg : String)
    (sc pc suc rc src wc bc : Nat) : StorageEffects :=
  { dbWrites := [⟨.failed, some msg⟩]
    markFailedCalls := 1
    storeCalls := sc, proofCalls := pc, suiCalls := suc, receiptCalls := rc
    submitReceiptCalls := src, withdrawCalls := wc, bridgeCalls := bc
    result := .error (match o.markFailedResult with | .ok _ => msg | .error m => m) }

/-- `RelayerService.processStorageRequest`, step for step:
fraud gate (a hit calls `markFailedOnOrigin` and returns `success: false`
without touching the database); require uploaded ciphertext; Walrus store;
ZK storage proof; Sui coordinator call; receipt creation; receipt submission
to the origin chain; then, when `originChain` is not `"sui"`, payment
withdraw and bridge; finally the single `status: "confirmed"` write. -/
def processStorageRequest (o : StorageOracle) : StorageEffects :=
  if o.fraudIsFraudulent then
    match o.markFailedResult with
    | .ok _ =>
      { dbWrites := [], markFailedCalls := 1
        storeCalls := 0, proofCalls := 0, suiCalls := 0, receiptCalls := 0
        submitReceiptCalls := 0, withdrawCalls := 0, bridgeCalls := 0
        result := .ok false }
    | .error m =>
      { dbWrites := [⟨.failed, some m⟩], markFailedCalls := 2
        storeCalls := 0, proofCalls := 0, suiCalls := 0, receiptCalls := 0
        submitReceiptCalls := 0, withdrawCalls := 0, bridgeCalls := 0
        result := .error m }
  else
    match o.encryptedData with
    | none => catchEffects o "Encrypted data not uploaded" 0 0 0 0 0 0 0
    | some _ =>
      match o.storeResult with
      | .error e => catchEffects o e 1 0 0 0 0 0 0
      | .ok _blobId =>
        match o.proofResult with
        | .error e => catchEffects o e 1 1 0 0 0 0 0
        | .ok _proof =>
          match o.suiResult with
          | .error e => catchEffects o e 1 1 1 0 0 0 0
          | .ok _suiTx =>
            match o.receiptResult with
            | .error e => catchEffects o e 1 1 1 1 0 0 0
            | .ok _ =>
              match o.submitReceiptResult with
              | .error e => catchEffects o e 1 1 1 1 1 0 0
              | .ok _ =>
                if o.originChain = "sui" then
                  { dbWrites := [⟨.confirmed, none⟩], markFailedCalls := 0
                    storeCalls := 1, proofCalls := 1, suiCalls := 1, receiptCalls := 1
                    submitReceiptCalls := 1, withdrawCalls := 0, bridgeCalls := 0
                    result := .ok true }
                else
                  match o.withdrawResult with
                  | .error e => catchEffects o e 1 1 1 1 1 1 0
                  | .ok _ =>
                    match o.bridgeResult with
                    | .error e => catchEffects o e 1 1 1 1 1 1 1
                    | .ok _ =>
                      { dbWrites := [⟨.confirmed, none⟩], markFailedCalls := 0
                        storeCalls := 1, proofCalls := 1, suiCalls := 1, receiptCalls := 1
                        submitReceiptCalls := 1, withdrawCalls := 1, bridgeCalls := 1
                        result := .ok true }

/-- The persisted status sequence of one execution. -/
def statusTrace (o : StorageOracle) : List StorageStatus :=
  (processStorageRequest o).dbWrites.map (·.status)

/-- Position of a status in the spec order
`Pending, Uploaded, Stored, ProofGenerated, Confirmed`. -/
def statusRank : StorageStatus → Nat
  | .pending => 0
  | .uploaded => 1
  | .stored => 2
  | .proofGenerated => 3
  | .confirmed => 4
  | .failed => 5

/-- The no-skip predicate of the claim, over the persisted sequence starting
from the implicit initial `Pending` state: every persisted status is either
`Failed` or exactly one step after its predecessor.  This is the spec-side
formalisation of C2, to be compared against `statusTrace`. -/
def specNoSkip (tr : List StorageStatus) : Bool :=
  (List.zip (StorageStatus.pending :: tr) tr).all
    (fun p => p.2 = StorageStatus.failed || statusRank p.2 = statusRank p.1 + 1)

/-- A concrete oracle on which every step succeeds. -/
def happyStorageOracle : StorageOracle :=
  { fraudIsFraudulent := false, fraudReason := ""
    markFailedResult := .ok ()
    encryptedData := some [1, 2, 3]
    storeResult := .ok "blob1"
    proofResult := .ok [9]
    suiResult := .ok "suiTx1"
    receiptResult := .ok ()
    submitReceiptResult := .ok ()
    originChain := "ethereum"
    withdrawResult := .ok ()
    bridgeResult := .ok () }

/-- Counterexample to C2: on a fully successful execution the only persisted
status write is `confirmed` — the routine jumps from the initial `Pending`
straight to `Confirmed`, skipping `Uploaded`, `Stored` and `ProofGenerated`,
so no intermediate step state is persisted before the next step begins. -/
theorem processStorageRequest_skips_steps :
    statusTrace happyStorageOracle = [StorageStatus.confirmed] ∧
    specNoSkip (statusTrace happyStorageOracle) = false ∧
    StorageStatus.stored ∉ statusTrace happyStorageOracle ∧
    StorageStatus.proofGenerated ∉ statusTrace happyStorageOracle := by
  refine ⟨rfl, rfl, ?_, ?_⟩ <;> decide

/-- C2 (amended): each execution of `processStorageRequest` persists at most
one status write — nothing on the fraud-rejection path whose writeback
succeeds, `confirmed` on full success, `failed` on any error.  The persisted
sequence is therefore trivially forward-moving and terminates in `Confirmed`
or `Failed`, but the intermediate statuses `Uploaded`, `Stored` and
`ProofGenerated` are never persisted by the processing routine. -/
theorem processStorageRequest_single_terminal_write (o : StorageOracle) :
    statusTrace o = [] ∨
    statusTrace o = [StorageStatus.confirmed] ∨
    statusTrace o = [StorageStatus.failed] := by
  unfold statusTrace processStorageRequest catchEffects
  split
  · split <;> simp
  · split
    · simp
    · split
      · simp
      · split
        · simp
        · split
          · simp
          · split
            · simp
            · split
              · simp
              · split
                · simp
                · split
                  · simp
                  · split
                    · simp
                    · simp

/-- Witness for C2 (amended) at the all-success oracle. -/
theorem processStorageRequest_single_terminal_write_witness :
    statusTrace happyStorageOracle = [] ∨
    statusTrace happyStorageOracle = [StorageStatus.confirmed] ∨
    statusTrace happyStorageOracle = [StorageStatus.failed] :=
  processStorageRequest_single_terminal_write happyStorageOracle

/-- Counterexample to C3: on a fraud-gate hit whose writeback succeeds, the
routine performs no database write at all — in particular it never records
the request status as `Failed` with the fraud reason. -/
theorem fraudBranch_records_no_status :
    (processStorageRequest { happyStorageOracle with
        fraudIsFraudulent := true, fraudReason := "Duplicate request detected within 1 hour"
      }).dbWrites = [] ∧
    ({ happyStorageOracle with
        fraudIsFraudulent := true, fraudReason := "Duplicate request detected within 1 hour"
      } : StorageOracle).fraudIsFraudulent = true := by
  constructor <;> rfl

/-- C3 (amended): when the fraud gate returns `true` and the compensating
`markFailedOnOrigin` call succeeds, `processStorageRequest` makes exactly one
`markFailed` call to the origin chain and invokes none of the later workflow
steps (storage, proof, coordinator, receipt, writeback, withdraw, bridge),
returning `success: false` — but it persists no status write, so the
request's stored status is not updated to `Failed`. -/
theorem fraudBranch_one_markFailed_no_later_steps (o : StorageOracle)
    (hfraud : o.fraudIsFraudulent = true)
    (hmf : o.markFailedResult = .ok ()) :
    (processStorageRequest o).markFailedCalls = 1 ∧
    (processStorageRequest o).dbWrites = [] ∧
    (processStorageRequest o).storeCalls = 0 ∧
    (processStorageRequest o).proofCalls = 0 ∧
    (processStorageRequest o).suiCalls = 0 ∧
    (processStorageRequest o).receiptCalls = 0 ∧
    (processStorageRequest o).submitReceiptCalls = 0 ∧
    (processStorageRequest o).withdrawCalls = 0 ∧
    (processStorageRequest o).bridgeCalls = 0 ∧
    (processStorageRequest o).result = .ok false := by
  simp [processStorageRequest, hfraud, hmf]

/-- Witness for C3 (amended) at a concrete fraudulent oracle. -/
theorem fraudBranch_one_markFailed_no_later_steps_witness :
    (processStorageRequest { happyStorageOracle with fraudIsFraudulent := true }).markFailedCalls = 1 ∧
    (processStorageRequest { happyStorageOracle with fraudIsFraudulent := true }).dbWrites = [] ∧
    (processStorageRequest { happyStorageOracle with fraudIsFraudulent := true }).storeCalls = 0 ∧
    (processStorageRequest { happyStorageOracle with fraudIsFraudulent := true }).proofCalls = 0 ∧
    (processStorageRequest { happyStorageOracle with fraudIsFraudulent := true }).suiCalls = 0 ∧
    (processStorageRequest { happyStorageOracle with fraudIsFraudulent := true }).receiptCalls = 0 ∧
    (processStorageRequest { happyStorageOracle with fraudIsFraudulent := true }).submitReceiptCalls = 0 ∧
    (processStorageRequest { happyStorageOracle with fraudIsFraudulent := true }).withdrawCalls = 0 ∧
    (processStorageRequest { happyStorageOracle with fraudIsFraudulent := true }).bridgeCalls = 0 ∧
    (processStorageRequest { happyStorageOracle with fraudIsFraudulent := true }).result = .ok false :=
  fraudBranch_one_markFailed_no_later_steps _ rfl rfl

/-- Counterexample to C4: with steps 1–7 all succeeding and the payment
withdraw then failing, the persisted final status is `failed` (not
`confirmed`) and one compensating `markFailed` write is attempted. -/
theorem bridgeFailure_reverts :
    statusTrace { happyStorageOracle with withdrawResult := .error "withdraw reverted" } =
      [StorageStatus.failed] ∧
    (processStorageRequest { happyStorageOracle with
        withdrawResult := .error "withdraw reverted" }).markFailedCalls = 1 := by
  constructor <;> rfl

/-- C4 (amended): the payment-bridge step runs inside the same `try` block and
before the `confirmed` database write, so for every request whose steps 1–7
succeed on a non-Sui origin chain, a failure of the withdraw or bridge call
drives the request to `Failed` with one compensating `markFailed` attempt; the
request is never persisted as `Confirmed`. -/
theorem bridgeFailure_drives_failed (o : StorageOracle)
    (hfraud : o.fraudIsFraudulent = false)
    (henc : ∃ d, o.encryptedData = some d)
    (hstore : ∃ b, o.storeResult = .ok b)
    (hproof : ∃ p, o.proofResult = .ok p)
    (hsui : ∃ s, o.suiResult = .ok s)
    (hrec : o.receiptResult = .ok ())
    (hsub : o.submitReceiptResult = .ok ())
    (hchain : o.originChain ≠ "sui")
    (hbridge : (∃ e, o.withdrawResult = .error e) ∨
      (o.withdrawResult = .ok () ∧ ∃ e, o.bridgeResult = .error e)) :
    statusTrace o = [StorageStatus.failed] ∧
    (processStorageRequest o).markFailedCalls = 1 ∧
    StorageStatus.confirmed ∉ statusTrace o := by
  obtain ⟨d, hd⟩ := henc
  obtain ⟨b, hb⟩ := hstore
  obtain ⟨p, hp⟩ := hproof
  obtain ⟨s, hs⟩ := hsui
  rcases hbridge with ⟨e, he⟩ | ⟨hw, e, he⟩
  · simp [statusTrace, processStorageRequest, catchEffects,
      hfraud, hd, hb, hp, hs, hrec, hsub, hchain, he]
  · simp [statusTrace, processStorageRequest, catchEffects,
      hfraud, hd, hb, hp, hs, hrec, hsub, hchain, he, hw]

/-- Witness for C4 (amended): the concrete withdraw-failure oracle. -/
theorem bridgeFailure_drives_failed_witness :
    statusTrace { happyStorageOracle with withdrawResult := .error "withdraw reverted" } =
      [StorageStatus.failed] ∧
    (processStorageRequest { happyStorageOracle with
        withdrawResult := .error "withdraw reverted" }).markFailedCalls = 1 ∧
    StorageStatus.confirmed ∉
      statusTrace { happyStorageOracle with withdrawResult := .error "withdraw reverted" } :=
  bridgeFailure_drives_failed _ rfl ⟨_, rfl⟩ ⟨_, rfl⟩ ⟨_, rfl⟩ ⟨_, rfl⟩ rfl rfl
    (by decide) (Or.inl ⟨_, rfl⟩)

/-! ### Receipt generation (`ReceiptGenerator.ts`)

`createReceipt` builds the payload with a fixed field order, hashing the ZK
proof with SHA-256 (`hashData`) and capturing `Date.now()` once at call time.
SHA-256 is an external collaborator and enters as the function parameter `h`;
digests are byte lists. -/

structure ReceiptParams where
  requestId : String
  walrusBlobId : String
  suiTxHash : String
  dataHash : String
  zkProof : List Nat
deriving DecidableEq, Repr

structure ReceiptPayload where
  requestId : String
  walrusBlobId : String
  suiTxHash : String
  dataHash : String
  zkProofHash : List Nat
  timestamp : Nat
  version : String
deriving DecidableEq, Repr

/-- The payload part of `ReceiptGenerator.createReceipt`: field for field the
object built before signing, with `now` the value of `Date.now()` captured at
the start of the call. -/
def createReceiptPayload (h : List Nat → List Nat) (p : ReceiptParams)
    (now : Nat) : ReceiptPayload :=
  { requestId := p.requestId
    walrusBlobId := p.walrusBlobId
    suiTxHash := p.suiTxHash
    dataHash := p.dataHash
    zkProofHash := h p.zkProof
    timestamp := now
    version := "1.0" }

/-- Counterexample to C5: two `createReceipt` calls with identical inputs are
not byte-identical — the payload embeds the `Date.now()` value captured at
call time, so calls at times 0 and 1 differ in the `timestamp` field. -/
theorem createReceiptPayload_not_deterministic :
    createReceiptPayload (fun l => l) ⟨"r1", "b1", "s1", "d1", [7]⟩ 0 ≠
      createReceiptPayload (fun l => l) ⟨"r1", "b1", "s1", "d1", [7]⟩ 1 := by
  intro h
  exact absurd (congrArg ReceiptPayload.timestamp h) (by decide)

/-- C5 (amended): the receipt payload is a deterministic function of the
inputs and the captured timestamp — two calls with identical inputs yield
byte-identical payloads exactly when they capture the same `Date.now()`
value, and differ otherwise. -/
theorem createReceiptPayload_deterministic (h : List Nat → List Nat)
    (p : ReceiptParams) (t1 t2 : Nat) :
    createReceiptPayload h p t1 = createReceiptPayload h p t2 ↔ t1 = t2 := by
  constructor
  · intro heq
    exact congrArg ReceiptPayload.timestamp heq
  · intro heq
    rw [heq]

/-- Witness for C5 (amended) at a concrete input and equal timestamps. -/
theorem createReceiptPayload_deterministic_witness :
    createReceiptPayload (fun l => l) ⟨"r1", "b1", "s1", "d1", [7]⟩ 5 =
      createReceiptPayload (fun l => l) ⟨"r1", "b1", "s1", "d1", [7]⟩ 5 ↔ (5 : Nat) = 5 :=
  createReceiptPayload_deterministic (fun l => l) ⟨"r1", "b1", "s1", "d1", [7]⟩ 5 5

/-! ### Receipt signing vs on-chain verification (C6)

`ReceiptGenerator.signForEVM` signs the keccak hash of
`solidityPacked(["bytes32","uint128","bytes32","bytes32","uint256"],
[requestId, walrusBlobId, suiTxHash, dataHash, timestamp])` — a 144-byte
packing.  The contract `DataHaven.verifyReceipt` recovers the signer over the
keccak hash of `abi.encodePacked(_requestId, _blobId, _suiTxHash, _proofHash)`
— a 128-byte packing whose second and third words are
`keccak256(utf8(walrusBlobId))` and `keccak256(utf8(suiTxHash))` as submitted
by `RelayerService.submitReceiptToOrigin`, and whose fourth word is
`keccak256(zkProof)`; `dataHash` and `timestamp` are absent.  The packings are
modelled as byte lists with explicit big-endian field widths. -/

/-- Big-endian byte encoding of `x` in `w` bytes (`abi.encodePacked` of a
`w`-byte word). -/
def natToBytesBE (w x : Nat) : List Nat :=
  (List.range w).map (fun i => x / 256 ^ (w - 1 - i) % 256)

/-- The bytes hashed and signed by `ReceiptGenerator.signForEVM`:
`bytes32 requestId ‖ uint128 walrusBlobId ‖ bytes32 suiTxHash ‖
bytes32 dataHash ‖ uint256 timestamp`. -/
def relayerSignedEncoding (requestId walrusBlobId suiTxHash dataHash timestamp : Nat) :
    List Nat :=
  natToBytesBE 32 requestId ++ natToBytesBE 16 walrusBlobId ++
    natToBytesBE 32 suiTxHash ++ natToBytesBE 32 dataHash ++ natToBytesBE 32 timestamp

/-- The bytes hashed by `DataHaven.verifyReceipt` before signature recovery:
`bytes32 _requestId ‖ bytes32 _blobId ‖ bytes32 _suiTxHash ‖
bytes32 _proofHash`. -/
def contractVerifiedEncoding (requestId blobIdHash suiTxHashHash proofHash : Nat) :
    List Nat :=
  natToBytesBE 32 requestId ++ natToBytesBE 32 blobIdHash ++
    natToBytesBE 32 suiTxHashHash ++ natToBytesBE 32 proofHash

lemma natToBytesBE_length (w x : Nat) : (natToBytesBE w x).length = w := by
  simp [natToBytesBE]

/-- C6 is a code bug: for every receipt the byte encoding the relayer signs
has 144 bytes while the byte encoding the contract verifies has 128 bytes, so
the two encodings are never equal — `verifyReceipt` hashes different bytes
than `signForEVM` signed and can never recover the relayer's address from the
submitted signature (the signed `dataHash` and `timestamp` are not even
submitted to the contract). -/
theorem signedEncoding_ne_verifiedEncoding
    (requestId walrusBlobId suiTxHash dataHash timestamp
      blobIdHash suiTxHashHash proofHash : Nat) :
    (relayerSignedEncoding requestId walrusBlobId suiTxHash dataHash timestamp).length = 144 ∧
    (contractVerifiedEncoding requestId blobIdHash suiTxHashHash proofHash).length = 128 ∧
    relayerSignedEncoding requestId walrusBlobId suiTxHash dataHash timestamp ≠
      contractVerifiedEncoding requestId blobIdHash suiTxHashHash proofHash := by
  refine ⟨?_, ?_, ?_⟩
  · simp [relayerSignedEncoding, natToBytesBE_length]
  · simp [contractVerifiedEncoding, natToBytesBE_length]
  · intro heq
    have h1 : (relayerSignedEncoding requestId walrusBlobId suiTxHash dataHash timestamp).length =
        (contractVerifiedEncoding requestId blobIdHash suiTxHashHash proofHash).length :=
      congrArg List.length heq
    simp [relayerSignedEncoding, contractVerifiedEncoding, natToBytesBE_length] at h1

/-- Witness for C6 at concrete field values. -/
theorem signedEncoding_ne_verifiedEncoding_witness :
    (relayerSignedEncoding 1 2 3 4 5).length = 144 ∧
    (contractVerifiedEncoding 1 6 7 8).length = 128 ∧
    relayerSignedEncoding 1 2 3 4 5 ≠ contractVerifiedEncoding 1 6 7 8 :=
  signedEncoding_ne_verifiedEncoding 1 2 3 4 5 6 7 8

/-! ### Integrity proof and retrieval workflow (C7)

`SealZKHandler.generateIntegrityProof` hashes the retrieved bytes with SHA-256
and throws unless the digest equals `originalHash` (the storage request's
`dataHash`, hex-decoded to bytes at the call site); on success the proof is
the concatenation `originalHash ‖ retrievedHash`.
`RelayerService.processRetrievalRequest` runs fraud gate, storage-request
lookup, access proof, Walrus retrieve and the integrity proof inside one
`try`; only after the integrity proof succeeds does it persist
`status: "completed"` together with the integrity proof, and the `catch`
persists `status: "failed"` without any integrity proof. -/

/-- `SealZKHandler.generateIntegrityProof` with SHA-256 as parameter `h`. -/
def generateIntegrityProof (h : List Nat → List Nat)
    (originalHash retrievedData : List Nat) : Except String (List Nat) :=
  let retrievedHash := h retrievedData
  if retrievedHash = originalHash then .ok (originalHash ++ retrievedHash)
  else .error "Integrity check failed: hash mismatch"

inductive RetrievalStatus where
  | completed
  | failed
deriving DecidableEq, Repr

/-- One `Database.updateRetrievalRequest` write: the status and the
`integrityProof` field it sets (the `catch` write sets none). -/
structure RetrievalWrite where
  status : RetrievalStatus
  integrityProof : Option (List Nat)
deriving DecidableEq, Repr

/-- The fields of the stored storage request read by the retrieval path. -/
structure StorageRecordLite where
  walrusBlobId : String
  dataHash : List Nat
deriving DecidableEq, Repr

/-- Outcomes of the external calls made by `processRetrievalRequest`, in
source order; the integrity step itself is the real
`generateIntegrityProof`. -/
structure RetrievalOracle where
  fraudIsFraudulent : Bool
  fraudReason : String
  storageRequest : Option StorageRecordLite
  accessProofResult : Except String (List Nat)
  retrieveResult : Except String (List Nat)
  confirmResult : Except String Unit

structure RetrievalEffects where
  dbWrites : List RetrievalWrite
  result : Except String Unit
deriving Repr

/-- `RelayerService.processRetrievalRequest`: fraud gate (a hit throws),
storage-request lookup, ZK access proof, Walrus retrieve, integrity proof
against the stored `dataHash`, then the `completed` write carrying the
integrity proof, then the origin-chain retrieval confirmation (whose failure
is caught and appends a `failed` write). -/
def processRetrievalRequest (h : List Nat → List Nat) (o : RetrievalOracle) :
    RetrievalEffects :=
  if o.fraudIsFraudulent then ⟨[⟨.failed, none⟩], .error o.fraudReason⟩
  else
    match o.storageRequest with
    | none => ⟨[⟨.failed, none⟩], .error "Storage request not found"⟩
    | some sr =>
      match o.accessProofResult with
      | .error e => ⟨[⟨.failed, none⟩], .error e⟩
      | .ok _ =>
        match o.retrieveResult with
        | .error e => ⟨[⟨.failed, none⟩], .error e⟩
        | .ok data =>
          match generateIntegrityProof h sr.dataHash data with
          | .error e => ⟨[⟨.failed, none⟩], .error e⟩
          | .ok proof =>
            match o.confirmResult with
            | .ok _ => ⟨[⟨.completed, some proof⟩], .ok ()⟩
            | .error e => ⟨[⟨.completed, some proof⟩, ⟨.failed, none⟩], .error e⟩

/-- C7: when the SHA-256 hash of the retrieved bytes differs from the storage
request's recorded `dataHash`, `generateIntegrityProof` raises the
hash-mismatch error, the retrieval's only persisted write is `failed` with no
integrity proof, and `completed` is never persisted; conversely
`generateIntegrityProof` succeeds exactly when the hashes are equal. -/
theorem integrityMismatch_fails (h : List Nat → List Nat) (o : RetrievalOracle)
    (sr : StorageRecordLite) (data : List Nat)
    (hfraud : o.fraudIsFraudulent = false)
    (hsr : o.storageRequest = some sr)
    (hap : ∃ ap, o.accessProofResult = .ok ap)
    (hret : o.retrieveResult = .ok data)
    (hne : h data ≠ sr.dataHash) :
    generateIntegrityProof h sr.dataHash data =
      .error "Integrity check failed: hash mismatch" ∧
    (processRetrievalRequest h o).dbWrites = [⟨.failed, none⟩] ∧
    (∀ w ∈ (processRetrievalRequest h o).dbWrites,
      w.status ≠ RetrievalStatus.completed ∧ w.integrityProof = none) ∧
    (∀ orig bytes, (∃ p, generateIntegrityProof h orig bytes = .ok p) ↔ h bytes = orig) := by
  obtain ⟨ap, hap⟩ := hap
  have hgen : generateIntegrityProof h sr.dataHash data =
      .error "Integrity check failed: hash mismatch" := by
    simp [generateIntegrityProof, hne]
  refine ⟨hgen, ?_, ?_, ?_⟩
  · simp [processRetrievalRequest, hfraud, hsr, hap, hret, hgen]
  · simp [processRetrievalRequest, hfraud, hsr, hap, hret, hgen]
  · intro orig bytes
    constructor
    · rintro ⟨p, hp⟩
      by_contra hneq
      simp [generateIntegrityProof, hneq] at hp
    · intro heq
      exact ⟨orig ++ h bytes, by simp [generateIntegrityProof, heq]⟩

/-- Witness for C7: identity hash, stored hash `[2]`, retrieved bytes `[1]`. -/
theorem integrityMismatch_fails_witness :
    generateIntegrityProof (fun l => l) [2] [1] =
      .error "Integrity check failed: hash mismatch" ∧
    (processRetrievalRequest (fun l => l)
      { fraudIsFraudulent := false, fraudReason := ""
        storageRequest := some ⟨"b1", [2]⟩
        accessProofResult := .ok []
        retrieveResult := .ok [1]
        confirmResult := .ok () }).dbWrites = [⟨.failed, none⟩] ∧
    (∀ w ∈ (processRetrievalRequest (fun l => l)
      { fraudIsFraudulent := false, fraudReason := ""
        storageRequest := some ⟨"b1", [2]⟩
        accessProofResult := .ok []
        retrieveResult := .ok [1]
        confirmResult := .ok () }).dbWrites,
      w.status ≠ RetrievalStatus.completed ∧ w.integrityProof = none) ∧
    (∀ orig bytes, (∃ p, generateIntegrityProof (fun l => l) orig bytes = .ok p) ↔
      (fun l => l) bytes = orig) :=
  integrityMismatch_fails (fun l => l) _ ⟨"b1", [2]⟩ [1] rfl rfl ⟨[], rfl⟩ rfl (by decide)

/-! ### Confirmation waits (C8, `EventListener.ts`)

`waitForEthereumConfirmations` polls `getBlockNumber` until it reaches
`event.blockNumber + reorgDepth` (12); `waitForSolanaConfirmations` polls
`getSignatureStatus` until the reported confirmation count (`null` read as 0)
reaches `solanaReorgDepth` (32).  Both loops are unbounded, so the embedding
takes a fuel argument: `none` means the loop was still spinning after `fuel`
polls.  `heights i` / `confs i` is the value returned by the i-th poll. -/

def reorgDepth : Nat := 12

def solanaReorgDepth : Nat := 32

def waitForEthereumConfirmations (heights : Nat → Nat) (blockNumber : Nat) :
    Nat → Nat → Option Nat
  | 0, _ => none
  | fuel + 1, i =>
    if blockNumber + reorgDepth ≤ heights i then some i
    else waitForEthereumConfirmations heights blockNumber fuel (i + 1)

def waitForSolanaConfirmations (confs : Nat → Nat) : Nat → Nat → Option Nat
  | 0, _ => none
  | fuel + 1, i =>
    if solanaReorgDepth ≤ confs i then some i
    else waitForSolanaConfirmations confs fuel (i + 1)

/-- The Ethereum `StorageRequested` subscription handler: wait for
confirmations, then hand the event to `handleEvent`; while the wait is
spinning nothing is handed downstream. -/
def ethereumStorageHandler (heights : Nat → Nat) (fuel blockNumber : Nat)
    (st : RelayerState) (ev : ChainEvent) : Option RelayerState :=
  match waitForEthereumConfirmations heights blockNumber fuel 0 with
  | none => none
  | some _ => some (handleEvent st "ethereum" ev)

/-- Counterexample to C8: the confirmation wait is not bounded — on a chain
whose reported height never reaches `blockNumber + 12`, no amount of polling
makes `waitForEthereumConfirmations` return, so the handler waits forever. -/
theorem waitForEthereumConfirmations_unbounded :
    ¬ ∃ fuel, (waitForEthereumConfirmations (fun _ => 0) 1 fuel 0).isSome = true := by
  rintro ⟨fuel, hs⟩
  have hall : ∀ f i, waitForEthereumConfirmations (fun _ => 0) 1 f i = none := by
    intro f
    induction f with
    | zero => intro i; rfl
    | succ f ih =>
      intro i
      simp only [waitForEthereumConfirmations]
      rw [if_neg (by simp [reorgDepth])]
      exact ih (i + 1)
  rw [hall fuel 0] at hs
  simp at hs

/-- C8 (amended): an event is handed downstream only after its per-chain
confirmation threshold is observed — if the Ethereum wait returns after poll
`i` then the observed height is at least `blockNumber + 12`, if the Solana
wait returns after poll `i` then the observed confirmation count is at least
32, and the Ethereum handler invokes `handleEvent` only when the wait has
returned; but the wait itself is unbounded (see the counterexample). -/
theorem handler_waits_for_threshold :
    (∀ (heights : Nat → Nat) (blockNumber fuel j i : Nat),
      waitForEthereumConfirmations heights blockNumber fuel j = some i →
        blockNumber + 12 ≤ heights i) ∧
    (∀ (confs : Nat → Nat) (fuel j i : Nat),
      waitForSolanaConfirmations confs fuel j = some i → 32 ≤ confs i) ∧
    (∀ (heights : Nat → Nat) (fuel blockNumber : Nat) (st st2 : RelayerState)
      (ev : ChainEvent),
      ethereumStorageHandler heights fuel blockNumber st ev = some st2 →
        (∃ i, waitForEthereumConfirmations heights blockNumber fuel 0 = some i ∧
          blockNumber + 12 ≤ heights i) ∧
        st2 = handleEvent st "ethereum" ev) := by
  have heth : ∀ (heights : Nat → Nat) (blockNumber fuel j i : Nat),
      waitForEthereumConfirmations heights blockNumber fuel j = some i →
        blockNumber + 12 ≤ heights i := by
    intro heights blockNumber fuel
    induction fuel with
    | zero => intro j i h; exact absurd h (by simp [waitForEthereumConfirmations])
    | succ f ih =>
      intro j i h
      simp only [waitForEthereumConfirmations] at h
      by_cases hc : blockNumber + reorgDepth ≤ heights j
      · rw [if_pos hc] at h
        cases h
        exact hc
      · rw [if_neg hc] at h
        exact ih (j + 1) i h
  refine ⟨heth, ?_, ?_⟩
  · intro confs fuel
    induction fuel with
    | zero => intro j i h; exact absurd h (by simp [waitForSolanaConfirmations])
    | succ f ih =>
      intro j i h
      simp only [waitForSolanaConfirmations] at h
      by_cases hc : solanaReorgDepth ≤ confs j
      · rw [if_pos hc] at h
        cases h
        exact hc
      · rw [if_neg hc] at h
        exact ih (j + 1) i h
  · intro heights fuel blockNumber st st2 ev h
    unfold ethereumStorageHandler at h
    cases hw : waitForEthereumConfirmations heights blockNumber fuel 0 with
    | none => rw [hw] at h; exact absurd h (by simp)
    | some i =>
      rw [hw] at h
      refine ⟨⟨i, rfl, heth heights blockNumber fuel 0 i hw⟩, ?_⟩
      cases h
      rfl

/-- Witness for C8 (amended): a chain already 12 blocks past the event block
lets the wait return at the first poll, with the threshold met. -/
theorem handler_waits_for_threshold_witness :
    (0 : Nat) + 12 ≤ 12 ∧ (32 : Nat) ≤ 32 :=
  ⟨handler_waits_for_threshold.1 (fun _ => 12) 0 1 0 0 rfl,
   handler_waits_for_threshold.2.1 (fun _ => 32) 1 0 0 rfl⟩

/-! ### Walrus store round-trip verification (C9, `WalrusSDKClient.ts`)

`store` writes the bytes, then `verifyStorage` re-retrieves the blob and
compares its SHA-256 digest with the digest of the input; a mismatch throws
and no blob reference is returned.  The blob backend is the parameter
`readBlob`; `writeResult` is the outcome of `walrus.writeFiles`. -/

/-- `WalrusSDKClient.retrieve`: `readBlob`, with failures surfaced as the
wrapped retrieval error. -/
def retrieve (readBlob : String → Option (List Nat)) (blobId : String) :
    Except String (List Nat) :=
  match readBlob blobId with
  | some bytes => .ok bytes
  | none => .error "Walrus retrieval error: blob not found"

/-- `WalrusSDKClient.verifyStorage`: re-retrieve and compare content hashes. -/
def verifyStorage (h : List Nat → List Nat) (readBlob : String → Option (List Nat))
    (blobId : String) (expectedHash : List Nat) : Except String Unit :=
  match retrieve readBlob blobId with
  | .error e => .error e
  | .ok retrieved =>
    if h retrieved = expectedHash then .ok ()
    else .error "Storage verification failed: hash mismatch"

/-- `WalrusSDKClient.store`: write the file, then verify the round-trip by
content hash before returning the blob id; any failure is wrapped in
`Walrus storage error:`. -/
def store (h : List Nat → List Nat) (readBlob : String → Option (List Nat))
    (writeResult : Except String String) (data : List Nat) : Except String String :=
  match writeResult with
  | .error e => .error ("Walrus storage error: " ++ e)
  | .ok blobId =>
    match verifyStorage h readBlob blobId (h data) with
    | .error e => .error ("Walrus storage error: " ++ e)
    | .ok _ => .ok blobId

/-- C9: `store` returns a blob reference only after the round-trip check — a
returned id points at stored bytes whose content hash equals the hash of the
input — and when the re-retrieved bytes hash differently, `store` raises the
verification error and returns no blob reference. -/
theorem store_roundtrip_verified (h : List Nat → List Nat)
    (readBlob : String → Option (List Nat)) (writeResult : Except String String)
    (data : List Nat) (b : String) :
    (store h readBlob writeResult data = .ok b →
      ∃ bytes, readBlob b = some bytes ∧ h bytes = h data) ∧
    (∀ bytes, writeResult = .ok b → readBlob b = some bytes → h bytes ≠ h data →
      store h readBlob writeResult data =
        .error "Walrus storage error: Storage verification failed: hash mismatch") := by
  constructor
  · intro hok
    cases hwr : writeResult with
    | error e => simp [store, hwr] at hok
    | ok blobId =>
      cases hv : verifyStorage h readBlob blobId (h data) with
      | error e => simp [store, hwr, hv] at hok
      | ok u =>
        have hbb : blobId = b := by simpa [store, hwr, hv] using hok
        subst hbb
        cases hrb : readBlob blobId with
        | none => simp [verifyStorage, retrieve, hrb] at hv
        | some bytes =>
          by_cases hh : h bytes = h data
          · exact ⟨bytes, rfl, hh⟩
          · simp [verifyStorage, retrieve, hrb, hh] at hv
  · intro bytes hwr hrb hne
    simp [store, verifyStorage, retrieve, hwr, hrb, hne]

/-- Witness for C9: identity hash, a backend holding corrupted bytes `[9]`
for blob `"b1"` while the input was `[1]` — `store` raises the verification
error. -/
theorem store_roundtrip_verified_witness :
    store (fun l => l) (fun _ => some [9]) (.ok "b1") [1] =
      .error "Walrus storage error: Storage verification failed: hash mismatch" :=
  (store_roundtrip_verified (fun l => l) (fun _ => some [9]) (.ok "b1") [1] "b1").2
    [9] rfl rfl (by decide)

end DataHaven
